import Mathlib

/-!
Verification of the certmagic-s3 storage adapter (src/s3.go).

The adapter translates the certmagic key-value storage contract
(Store/Load/Delete/Exists/List/Stat/Lock/Unlock) into calls against a
minio object-store client, applying a configurable key prefix.

Modelling choices:
  * Go byte slices are `List Nat`; Go strings are Lean `String`, manipulated
    through their underlying `List Char` (`String.data`) so that everything
    reduces for concrete evaluation.
  * The remote object store is an explicit state `σ` threaded through each
    client call; the minio client itself (external to the repository) is an
    abstract record of state transformers, instantiated below both by an
    honest in-memory model (`idealClient`) and by instrumented test clients.
  * Go `error` values are `GoErr`; `nil` errors are `Option.none` (for
    functions returning a bare error) or `Except.ok` (for value-plus-error
    pairs where the code branches on the error).
-/

/-- Go error values relevant to the adapter: the `fs.ErrNotExist` sentinel
returned by `Load`, the not-found response of the object store, and an
arbitrary client-side error tagged by a numeric code. -/
inductive GoErr where
  | fsErrNotExist
  | noSuchKey
  | clientErr (code : Nat)
deriving DecidableEq, Repr

/-- minio `ObjectInfo`: the metadata record returned by `StatObject` and sent
over the `ListObjects` channel. The `err` field models `ObjectInfo.Err`,
through which `ListObjects` reports listing failures. Time is modelled as a
`Nat`. -/
structure ObjectInfo where
  key : String
  size : Int
  lastModified : Nat
  err : Option GoErr
deriving DecidableEq, Repr

/-- certmagic `KeyInfo` (fields `Key`, `Modified`, `Size`, `IsTerminal`). -/
structure KeyInfo where
  key : String
  modified : Nat
  size : Int
  isTerminal : Bool
deriving DecidableEq, Repr

/-! ### Go `path` and `strings` library functions used by the adapter -/

/-- Go `path.Clean`, double-dot backtracking: models
`out.w--; for out.w > dotdot && out.index(out.w) != '/' { out.w-- }` and
returns the new write index `w`. `buf` holds the characters written so far
(the buffer is `buf.take w` afterwards); the recursion is structural in `w`. -/
def cleanBacktrack (buf : List Char) (dotdot : Nat) : Nat → Nat
  | 0 => 0
  | w + 1 =>
    if w + 1 > dotdot ∧ buf.getD (w + 1) ' ' ≠ '/' then cleanBacktrack buf dotdot w
    else w + 1

/-- Length of the leading run of non-separator characters: the number of
steps taken by Go `path.Clean`'s scan `for ; r < n && path[r] != '/'; r++`
once the remaining input is viewed as a list. -/
def compLen : List Char → Nat
  | [] => 0
  | c :: rest => if c ≠ '/' then compLen rest + 1 else 0

/-- Go `path.Clean`, end of the current path component: the index just past
the component that starts at `r` (first `j ≥ r` with `j` at the end of the
input or `p[j] = '/'`). -/
def cleanCopyEnd (p : List Char) (r : Nat) : Nat :=
  r + compLen (p.drop r)

/-- Main loop of Go `path.Clean` over the input characters `p` (length `n`),
with read index `r`, output buffer `out`, and `dotdot` marking the point the
buffer may not backtrack past. `fuel` bounds the iteration count; every
branch advances `r` by at least one, so `n + 1` units of fuel always suffice
for the initial call. -/
def cleanLoop (p : List Char) (n : Nat) (rooted : Bool) (fuel : Nat)
    (out : List Char) (r dotdot : Nat) : List Char :=
  match fuel with
  | 0 => out
  | fuel + 1 =>
    if r ≥ n then out
    else if p.getD r ' ' = '/' then
      cleanLoop p n rooted fuel out (r + 1) dotdot
    else if p.getD r ' ' = '.' ∧ (r + 1 = n ∨ p.getD (r + 1) ' ' = '/') then
      cleanLoop p n rooted fuel out (r + 1) dotdot
    else if p.getD r ' ' = '.' ∧ p.getD (r + 1) ' ' = '.' ∧
        (r + 2 = n ∨ p.getD (r + 2) ' ' = '/') then
      if out.length > dotdot then
        cleanLoop p n rooted fuel (out.take (cleanBacktrack out dotdot (out.length - 1)))
          (r + 2) dotdot
      else if !rooted then
        cleanLoop p n rooted fuel
          ((if out.length > 0 then out ++ ['/'] else out) ++ ['.', '.']) (r + 2)
          ((if out.length > 0 then out ++ ['/'] else out) ++ ['.', '.']).length
      else
        cleanLoop p n rooted fuel out (r + 2) dotdot
    else
      cleanLoop p n rooted fuel
        ((if (rooted ∧ out.length ≠ 1) ∨ (¬rooted ∧ out.length ≠ 0) then out ++ ['/'] else out)
          ++ ((p.drop r).take (cleanCopyEnd p r - r)))
        (cleanCopyEnd p r) dotdot

/-- Go `path.Clean`. Empty input yields "."; otherwise the iterative
algorithm runs over the characters, and an empty result buffer yields ".". -/
def goPathClean (s : String) : String :=
  if s.data = [] then "."
  else
    let p := s.data
    let n := p.length
    let rooted := p.getD 0 ' ' = '/'
    let out := cleanLoop p n rooted (n + 1) (if rooted then ['/'] else [])
      (if rooted then 1 else 0) (if rooted then 1 else 0)
    if out = [] then "." else ⟨out⟩

/-- Go `path.Join` restricted to two arguments, as `KeyPrefix` calls it:
all-empty input yields ""; otherwise the non-empty elements are joined with
a slash and the result cleaned. -/
def goPathJoin (a b : String) : String :=
  if a.data = [] ∧ b.data = [] then ""
  else if a.data = [] then goPathClean b
  else goPathClean ⟨a.data ++ '/' :: b.data⟩

/-- Go `strings.CutPrefix`: removes the leading occurrence of `p` from `s`,
reporting whether it was present. -/
def goCutPrefix (s p : String) : String × Bool :=
  if p.data.isPrefixOf s.data then (⟨s.data.drop p.data.length⟩, true) else (s, false)

/-- Go `strings.HasSuffix`. -/
def goHasSuffix (s suffix : String) : Bool :=
  suffix.data.isSuffixOf s.data

/-! ### The minio client, as an abstract state-transformer interface

The adapter's only interaction with the world is through five methods of the
minio client (external library, out of scope of the repository). Each method
threads an abstract object-store state `σ` and returns what the Go call
returns. `listObjects` additionally returns a `Nat`: the number of entries
buffered in the result channel at the instant `List` calls `len(objects)`
(the Go code sizes its slice from a channel length, which is
timing-dependent). -/
structure MinioClient (σ : Type) where
  putObject : σ → String → String → List Nat → σ × Option GoErr
  getObject : σ → String → String → σ × Except GoErr (List Nat)
  removeObject : σ → String → String → σ × Option GoErr
  statObject : σ → String → String → σ × Except GoErr ObjectInfo
  listObjects : σ → String → String → Bool → σ × Nat × List ObjectInfo

/-- The adapter's configuration and client handle (struct `S3` in src/s3.go;
the logger is omitted, log statements having no observable effect on the
storage behaviour). -/
structure S3 (σ : Type) where
  client : MinioClient σ
  Host : String
  Bucket : String
  AccessID : String
  SecretKey : String
  Pfx : String
  Insecure : Bool
  UseIamProvider : Bool

/-- `KeyPrefix` (src/s3.go:287-289): `path.Join(s3.Prefix, key)`. -/
def S3.KeyPrefix (s3 : S3 σ) (key : String) : String :=
  goPathJoin s3.Pfx key

/-- `CutKeyPrefix` (src/s3.go:290-293): `strings.CutPrefix(key, s3.Prefix)`,
discarding the found flag. -/
def S3.CutKeyPrefix (s3 : S3 σ) (key : String) : String :=
  (goCutPrefix key s3.Pfx).1

/-- `Lock` (src/s3.go:191-193): `return nil` — no client call, no state
change. -/
def S3.Lock (s3 : S3 σ) (st : σ) (key : String) : σ × Option GoErr :=
  (st, none)

/-- `Unlock` (src/s3.go:195-197): `return nil`. -/
def S3.Unlock (s3 : S3 σ) (st : σ) (key : String) : σ × Option GoErr :=
  (st, none)

/-- `Store` (src/s3.go:199-208): prefixes the key, calls `PutObject` with the
value and its length, and returns the resulting error unchanged. -/
def S3.Store (s3 : S3 σ) (st : σ) (key : String) (value : List Nat) : σ × Option GoErr :=
  let key := s3.KeyPrefix key
  s3.client.putObject st s3.Bucket key value

/-- `Exists` (src/s3.go:238-248): prefixes the key, calls `StatObject`, and
returns `err == nil`. -/
def S3.Exists (s3 : S3 σ) (st : σ) (key : String) : σ × Bool :=
  let key := s3.KeyPrefix key
  let r := s3.client.statObject st s3.Bucket key
  (r.1, match r.2 with | .ok _ => true | .error _ => false)

/-- `Load` (src/s3.go:210-228): pre-checks `Exists`, returning
`fs.ErrNotExist` if absent; otherwise prefixes the key and fetches the
object. `getObject` here collapses Go's `GetObject` plus `io.ReadAll` into
one call producing the fully buffered content or the fetch error. -/
def S3.Load (s3 : S3 σ) (st : σ) (key : String) : σ × Except GoErr (List Nat) :=
  let ex := s3.Exists st key
  if ex.2 = false then (ex.1, .error .fsErrNotExist)
  else
    let key := s3.KeyPrefix key
    let r := s3.client.getObject ex.1 s3.Bucket key
    match r.2 with
    | .error e => (r.1, .error e)
    | .ok object => (r.1, .ok object)

/-- `Delete` (src/s3.go:230-236): prefixes the key and returns
`RemoveObject`'s error unchanged. -/
def S3.Delete (s3 : S3 σ) (st : σ) (key : String) : σ × Option GoErr :=
  let key := s3.KeyPrefix key
  s3.client.removeObject st s3.Bucket key

/-- `List` (src/s3.go:250-264): lists objects under the prefixed prefix,
allocates `make([]string, len(objects))` — `len` of a channel, modelled by
the `Nat` the client returns, padding the result with that many empty
strings — then appends `CutKeyPrefix(object.Key)` for each received object
and returns the keys with a nil error. -/
def S3.List (s3 : S3 σ) (st : σ) (pfx : String) (recursive : Bool) :
    σ × (List String × Option GoErr) :=
  let r := s3.client.listObjects st s3.Bucket (s3.KeyPrefix pfx) recursive
  let keys := List.replicate r.2.1 "" ++ r.2.2.map (fun object => s3.CutKeyPrefix object.key)
  (r.1, (keys, none))

/-- `Stat` (src/s3.go:266-285): prefixes the key and calls `StatObject`. On
error it returns the zero `KeyInfo` and a nil error; on success it builds the
`KeyInfo` from the returned metadata (whose `Key` is the object's key in the
bucket) and returns the nil error from the success branch. -/
def S3.Stat (s3 : S3 σ) (st : σ) (key : String) : σ × (KeyInfo × Option GoErr) :=
  let key := s3.KeyPrefix key
  let r := s3.client.statObject st s3.Bucket key
  match r.2 with
  | .error _ => (r.1, (⟨"", 0, 0, false⟩, none))
  | .ok object =>
    (r.1, (⟨object.key, object.lastModified, object.size, goHasSuffix object.key "/"⟩, none))

/-! ### An honest in-memory model of the object store

S3 itself is out of scope of the repository; these definitions model a
fault-free S3-compatible store as a map from (bucket, key) to content, with
last-writer-wins puts, idempotent deletes, and stat/get/list reads that do
not change the store. -/

/-- The object store state: an association list from (bucket, physical key)
to content, most recent write first. -/
def ObjStore : Type := List ((String × String) × List Nat)

/-- Content of the object at (bucket `b`, key `k`), if present. -/
def lookupObj : ObjStore → String → String → Option (List Nat)
  | [], _, _ => none
  | ((bk, v) :: rest), b, k =>
    if bk.1 = b ∧ bk.2 = k then some v else lookupObj rest b k

/-- Write (or overwrite) the object at (bucket `b`, key `k`). -/
def insertObj (st : ObjStore) (b k : String) (v : List Nat) : ObjStore :=
  ((b, k), v) :: st

/-- Remove the object at (bucket `b`, key `k`); removing an absent object is
a no-op (S3 deletes are idempotent). -/
def eraseObj (st : ObjStore) (b k : String) : ObjStore :=
  st.filter (fun e => !(e.1.1 = b ∧ e.1.2 = k : Bool))

/-- Entries of bucket `b` whose key starts with `pfx`, as `ObjectInfo`
values (the `recursive` flag only affects grouping of the listing, which no
claim depends on). -/
def listObjs (st : ObjStore) (b pfx : String) : List ObjectInfo :=
  (st.filter (fun e => (e.1.1 = b : Bool) && pfx.data.isPrefixOf e.1.2.data)).map
    (fun e => ⟨e.1.2, e.2.length, 0, none⟩)

/-- The fault-free object-store client over `ObjStore`: puts insert, deletes
erase, stat/get/list read without modifying the state, and absent objects
yield the store's not-found error (never the `fs.ErrNotExist` sentinel,
which only the adapter's `Load` manufactures). -/
def idealClient : MinioClient ObjStore :=
  ⟨fun st b k v => (insertObj st b k v, none),
   fun st b k => (st, match lookupObj st b k with
     | some v => .ok v
     | none => .error .noSuchKey),
   fun st b k => (eraseObj st b k, none),
   fun st b k => (st, match lookupObj st b k with
     | some v => .ok ⟨k, v.length, 0, none⟩
     | none => .error .noSuchKey),
   fun st b pfx _ => (st, 0, listObjs st b pfx)⟩

/-- A client that records, in order, every object key passed to any of its
five methods, and always answers successfully; used to observe which
physical keys the adapter sends to the store. -/
def recClient : MinioClient (List String) :=
  ⟨fun st _ k _ => (st ++ [k], none),
   fun st _ k => (st ++ [k], .ok []),
   fun st _ k => (st ++ [k], none),
   fun st _ k => (st ++ [k], .ok ⟨k, 0, 0, none⟩),
   fun st _ k _ => (st ++ [k], 0, [])⟩

/-- A stateless client whose listing fails: the `ListObjects` channel
delivers a single `ObjectInfo` carrying a non-nil `Err` (how minio reports a
failed listing) and no usable entries. -/
def failListClient : MinioClient Unit :=
  ⟨fun st _ _ _ => (st, none),
   fun st _ _ => (st, .ok []),
   fun st _ _ => (st, none),
   fun st _ _ => (st, .ok ⟨"", 0, 0, none⟩),
   fun st _ _ _ => (st, 0, [⟨"", 0, 0, some (.clientErr 7)⟩])⟩

/-- A trivial client, for statements that only concern the pure key
arithmetic of the adapter. -/
def nullClient : MinioClient Unit :=
  ⟨fun st _ _ _ => (st, none),
   fun st _ _ => (st, .ok []),
   fun st _ _ => (st, none),
   fun st _ _ => (st, .ok ⟨"", 0, 0, none⟩),
   fun st _ _ _ => (st, 0, [])⟩

/-- Build an adapter from a client, bucket and configured prefix (the
remaining configuration fields play no role in the storage operations). -/
def mkS3 (cl : MinioClient σ) (bucket pfxCfg : String) : S3 σ :=
  ⟨cl, "", bucket, "", "", pfxCfg, false, false⟩

example : goPathClean "ssl/a/" = "ssl/a" := by decide
example : goPathClean "a//b" = "a/b" := by decide
example : goPathClean "a/b/.." = "a" := by decide
example : goPathClean "/../a" = "/a" := by decide
example : goPathJoin "ssl" "a" = "ssl/a" := by decide
example : goPathJoin "" "a" = "a" := by decide
example : goPathJoin "ssl" "" = "ssl" := by decide
example : goPathJoin "ssl" "example.com/cert.pem" = "ssl/example.com/cert.pem" := by decide
example : goCutPrefix "ssl/a" "ssl" = ("/a", true) := by decide

/-! ### Helper lemmas -/

theorem mkS3_client {σ : Type} (cl : MinioClient σ) (b p : String) :
    (mkS3 cl b p).client = cl := rfl

theorem mkS3_Bucket {σ : Type} (cl : MinioClient σ) (b p : String) :
    (mkS3 cl b p).Bucket = b := rfl

theorem mkS3_Pfx {σ : Type} (cl : MinioClient σ) (b p : String) :
    (mkS3 cl b p).Pfx = p := rfl

theorem mkS3_KeyPrefix {σ : Type} (cl : MinioClient σ) (b p k : String) :
    (mkS3 cl b p).KeyPrefix k = goPathJoin p k := rfl

theorem lookupObj_insert (st : ObjStore) (b k : String) (v : List Nat) :
    lookupObj (insertObj st b k v) b k = some v := by
  simp [insertObj, lookupObj]

/-! ### Claims -/

/-- Claim C1: over the fault-free object-store model, `Store(k, v)` succeeds
(returns a nil error), and a `Load(k)` performed on the resulting store with
no intervening `Delete` returns exactly `v`. -/
theorem store_load_roundtrip (B P : String) (st : ObjStore) (k : String) (v : List Nat) :
    (S3.Store (mkS3 idealClient B P) st k v).2 = none ∧
    (S3.Load (mkS3 idealClient B P) (S3.Store (mkS3 idealClient B P) st k v).1 k).2 =
      Except.ok v := by
  refine ⟨rfl, ?_⟩
  simp [S3.Store, S3.Load, S3.Exists, S3.KeyPrefix, mkS3, idealClient, lookupObj_insert]

/-- Claim C2: `Lock` and `Unlock` return a nil error immediately, leave the
object-store state untouched, and make no client call (they are constant in
the client, as the statement holds for every client and state). -/
theorem lock_unlock_noop {σ : Type} (s3 : S3 σ) (st : σ) (key : String) :
    s3.Lock st key = (st, none) ∧ s3.Unlock st key = (st, none) :=
  ⟨rfl, rfl⟩

/-- Claim C3, counterexample: a client whose listing fails — the channel
carries an entry with a non-nil `Err` — yet `List` returns a nil error, so
List errors do not propagate. -/
theorem list_error_swallowed_counterexample :
    (failListClient.listObjects () "b" (goPathJoin "p" "") true).2.2 =
      [⟨"", 0, 0, some (GoErr.clientErr 7)⟩] ∧
    (S3.List (mkS3 failListClient "b" "p") () "" true).2 = ([""], none) := by
  decide

/-- Claim C3, amended: `Store` and `Delete` return the underlying client
call's error unchanged, for every client; `List`, however, always returns a
nil error, discarding listing failures. -/
theorem store_delete_propagate_list_swallows {σ : Type} (cl : MinioClient σ)
    (B P : String) (st : σ) (k : String) (v : List Nat) (pfx : String) (recursive : Bool) :
    (S3.Store (mkS3 cl B P) st k v).2 = (cl.putObject st B (goPathJoin P k) v).2 ∧
    (S3.Delete (mkS3 cl B P) st k).2 = (cl.removeObject st B (goPathJoin P k)).2 ∧
    (S3.List (mkS3 cl B P) st pfx recursive).2.2 = none :=
  ⟨rfl, rfl, rfl⟩

/-- Claim C4, counterexample: with configured prefix "ssl", stripping the
prefix from `KeyPrefix "a" = "ssl/a"` leaves "/a", not "a" (the separator
survives), and the distinct logical keys "a" and "a/" collide under
`KeyPrefix` because `path.Join` cleans the path. -/
theorem keyprefix_not_reversible_counterexample :
    (mkS3 nullClient "b" "ssl").CutKeyPrefix ((mkS3 nullClient "b" "ssl").KeyPrefix "a") = "/a" ∧
    ("/a" : String) ≠ "a" ∧
    (mkS3 nullClient "b" "ssl").KeyPrefix "a" = (mkS3 nullClient "b" "ssl").KeyPrefix "a/" ∧
    ("a" : String) ≠ "a/" := by
  decide

/-- Claim C4, amended: key-prefixing is neither injective nor reversible in
general (a nonempty prefix leaves a leading separator after stripping, and
path cleaning merges distinct keys); the round trip
`CutKeyPrefix (KeyPrefix k) = k` does hold when the configured prefix is
empty and `k` is a cleaned path. -/
theorem keyprefix_roundtrip_empty_clean {σ : Type} (s3 : S3 σ) (k : String)
    (hp : s3.Pfx = "") (hk : goPathClean k = k) :
    s3.CutKeyPrefix (s3.KeyPrefix k) = k := by
  have hkne : k.data ≠ [] := by
    intro h
    have hke : k = "" := by
      cases k
      simp_all
    rw [hke] at hk
    exact absurd hk (by decide)
  unfold S3.KeyPrefix S3.CutKeyPrefix goPathJoin goCutPrefix
  rw [hp]
  simp [hkne, hk, List.isPrefixOf]

/-- Witness for the amended C4 at prefix "" and key "a". -/
theorem keyprefix_roundtrip_empty_clean_witness :
    (mkS3 nullClient "b" "").CutKeyPrefix ((mkS3 nullClient "b" "").KeyPrefix "a") = "a" :=
  keyprefix_roundtrip_empty_clean (mkS3 nullClient "b" "") "a" rfl (by decide)

/-- Claim C5: whenever the underlying `StatObject` call fails — for any
error whatsoever — `Stat` returns the zero `KeyInfo` together with a nil
error, propagating nothing to the caller. -/
theorem stat_swallows_errors {σ : Type} (cl : MinioClient σ) (B P : String)
    (st : σ) (k : String) (e : GoErr)
    (h : (cl.statObject st B (goPathJoin P k)).2 = Except.error e) :
    S3.Stat (mkS3 cl B P) st k =
      ((cl.statObject st B (goPathJoin P k)).1, (⟨"", 0, 0, false⟩, none)) := by
  simp only [S3.Stat, mkS3_KeyPrefix, mkS3_client, mkS3_Bucket]
  rw [h]

/-- Witness for C5: on the empty ideal store the stat fails with the store's
not-found error, and `Stat` reports an empty result and a nil error. -/
theorem stat_swallows_errors_witness :
    S3.Stat (mkS3 idealClient "b" "") ([] : ObjStore) "a" =
      (([] : ObjStore), (⟨"", 0, 0, false⟩, none)) :=
  stat_swallows_errors idealClient "b" "" ([] : ObjStore) "a" GoErr.noSuchKey rfl

/-- Claim C6: `Exists` returns true exactly when the metadata-stat call on
the prefixed key returns without error; every error, of any kind, yields
false. -/
theorem exists_iff_stat_ok {σ : Type} (cl : MinioClient σ) (B P : String)
    (st : σ) (k : String) :
    (S3.Exists (mkS3 cl B P) st k).2 = true ↔
      ∃ info, (cl.statObject st B (goPathJoin P k)).2 = Except.ok info := by
  simp only [S3.Exists, mkS3_KeyPrefix, mkS3_client, mkS3_Bucket]
  cases h : (cl.statObject st B (goPathJoin P k)).2 <;> simp [h]

/-- Claim C7: `Load` returns the `fs.ErrNotExist` sentinel exactly when the
existence pre-check reports the object absent (given that the client's fetch
never itself produces that sentinel, as minio does not); when the pre-check
fails the fetch is not performed, and when it succeeds `Load` returns the
fetch's outcome — the fully buffered content, or the fetch error
propagated. -/
theorem load_notfound_exactly_on_precheck {σ : Type} (cl : MinioClient σ)
    (B P : String) (st : σ) (k : String)
    (hgen : ∀ e, (cl.getObject (S3.Exists (mkS3 cl B P) st k).1 B (goPathJoin P k)).2 =
      Except.error e → e ≠ GoErr.fsErrNotExist) :
    ((S3.Load (mkS3 cl B P) st k).2 = Except.error GoErr.fsErrNotExist ↔
      (S3.Exists (mkS3 cl B P) st k).2 = false) ∧
    ((S3.Exists (mkS3 cl B P) st k).2 = false →
      S3.Load (mkS3 cl B P) st k =
        ((S3.Exists (mkS3 cl B P) st k).1, Except.error GoErr.fsErrNotExist)) ∧
    ((S3.Exists (mkS3 cl B P) st k).2 = true →
      S3.Load (mkS3 cl B P) st k =
        cl.getObject (S3.Exists (mkS3 cl B P) st k).1 B (goPathJoin P k)) := by
  simp only [S3.Load, mkS3_KeyPrefix, mkS3_client, mkS3_Bucket]
  cases hE : (S3.Exists (mkS3 cl B P) st k).2 with
  | false => simp
  | true =>
    cases hG : (cl.getObject (S3.Exists (mkS3 cl B P) st k).1 B (goPathJoin P k)).2 with
    | error e =>
      have hne := hgen e hG
      refine ⟨by simp [hne], by simp, fun _ => ?_⟩
      simp only [Bool.true_eq_false, if_false]
      exact Prod.ext_iff.2 ⟨rfl, hG.symm⟩
    | ok d =>
      refine ⟨by simp, by simp, fun _ => ?_⟩
      simp only [Bool.true_eq_false, if_false]
      exact Prod.ext_iff.2 ⟨rfl, hG.symm⟩

/-- Witness for C7 on the empty ideal store: the pre-check fails and `Load`
returns the not-found sentinel. -/
theorem load_notfound_exactly_on_precheck_witness :
    ((S3.Load (mkS3 idealClient "b" "") ([] : ObjStore) "a").2 =
        Except.error GoErr.fsErrNotExist ↔
      (S3.Exists (mkS3 idealClient "b" "") ([] : ObjStore) "a").2 = false) ∧
    ((S3.Exists (mkS3 idealClient "b" "") ([] : ObjStore) "a").2 = false →
      S3.Load (mkS3 idealClient "b" "") ([] : ObjStore) "a" =
        ((S3.Exists (mkS3 idealClient "b" "") ([] : ObjStore) "a").1,
          Except.error GoErr.fsErrNotExist)) ∧
    ((S3.Exists (mkS3 idealClient "b" "") ([] : ObjStore) "a").2 = true →
      S3.Load (mkS3 idealClient "b" "") ([] : ObjStore) "a" =
        idealClient.getObject (S3.Exists (mkS3 idealClient "b" "") ([] : ObjStore) "a").1 "b"
          (goPathJoin "" "a")) :=
  load_notfound_exactly_on_precheck idealClient "b" "" ([] : ObjStore) "a"
    (by
      intro e h
      have h2 : Except.error GoErr.noSuchKey = Except.error (ε := GoErr) (α := List Nat) e := h
      injection h2 with he
      rw [← he]
      decide)

/-- Claim C8, counterexample: with configured prefix "ssl" and logical key
"", the recording client shows the physical key passed to `PutObject` is
`path.Join("ssl", "") = "ssl"`, not `"ssl" + "/" + "" = "ssl/"`. -/
theorem physical_key_counterexample :
    (S3.Store (mkS3 recClient "b" "ssl") [] "" [1]).1 = ["ssl"] ∧
    ("ssl" : String) ≠ "ssl" ++ "/" ++ "" := by
  decide

/-- Claim C8, amended: the physical object key used by `Store`, `Load`,
`Delete`, `Exists`, and `Stat` equals Go's `path.Join(prefix, key)` — the
cleaned join, which coincides with `prefix + "/" + key` only when both parts
are nonempty and already clean. The recording client logs every key the
adapter passes to the store: each operation contacts the store only at
`path.Join(P, k)` (`Load` twice: the stat of the pre-check, then the
fetch). -/
theorem physical_key_is_path_join (B P k : String) (v : List Nat) (log : List String) :
    (S3.Store (mkS3 recClient B P) log k v).1 = log ++ [goPathJoin P k] ∧
    (S3.Delete (mkS3 recClient B P) log k).1 = log ++ [goPathJoin P k] ∧
    (S3.Exists (mkS3 recClient B P) log k).1 = log ++ [goPathJoin P k] ∧
    (S3.Stat (mkS3 recClient B P) log k).1 = log ++ [goPathJoin P k] ∧
    (S3.Load (mkS3 recClient B P) log k).1 = log ++ [goPathJoin P k, goPathJoin P k] := by
  refine ⟨rfl, rfl, rfl, rfl, ?_⟩
  simp [S3.Load, S3.Exists, S3.KeyPrefix, mkS3, recClient]

/-- Claim C9, counterexample: after storing logical key "a" under configured
prefix "ssl", `Stat "a"` reports the physical key "ssl/a", not the logical
key "a" — reads do not strip the prefix consistently. -/
theorem stat_reports_physical_key_counterexample :
    ((S3.Stat (mkS3 idealClient "b" "ssl")
        (S3.Store (mkS3 idealClient "b" "ssl") ([] : ObjStore) "a" [9]).1 "a").2.1).key =
      "ssl/a" ∧
    ("ssl/a" : String) ≠ "a" := by
  decide

/-- Claim C9, amended: the prefix is prepended on every write, and `List`
applies `CutKeyPrefix` to each key received from the listing (removing the
configured prefix from the front when present, after padding from the
channel-length allocation); but the key reported by a successful `Stat` is
the physical (prefixed) key, not the logical key. -/
theorem list_cuts_stat_reports_physical :
    (∀ {σ : Type} (cl : MinioClient σ) (B P : String) (st : σ) (pfx : String) (recursive : Bool),
      (S3.List (mkS3 cl B P) st pfx recursive).2.1 =
        List.replicate (cl.listObjects st B (goPathJoin P pfx) recursive).2.1 "" ++
          (cl.listObjects st B (goPathJoin P pfx) recursive).2.2.map
            (fun o => (goCutPrefix o.key P).1)) ∧
    (∀ (B P : String) (st : ObjStore) (k : String) (v : List Nat),
      ((S3.Stat (mkS3 idealClient B P)
          (insertObj st B (goPathJoin P k) v) k).2.1).key = goPathJoin P k) := by
  constructor
  · intro σ cl B P st pfx recursive
    rfl
  · intro B P st k v
    simp [S3.Stat, mkS3_KeyPrefix, mkS3_client, mkS3_Bucket, idealClient, lookupObj_insert]

/-- Claim C10: over the fault-free object-store model, `Load`, `Exists`,
`List`, and `Stat` leave the set of stored objects and their contents — the
entire store state — unchanged. -/
theorem reads_leave_store_unchanged (B P : String) (st : ObjStore)
    (key pfx : String) (recursive : Bool) :
    (S3.Load (mkS3 idealClient B P) st key).1 = st ∧
    (S3.Exists (mkS3 idealClient B P) st key).1 = st ∧
    (S3.List (mkS3 idealClient B P) st pfx recursive).1 = st ∧
    (S3.Stat (mkS3 idealClient B P) st key).1 = st := by
  refine ⟨?_, rfl, rfl, ?_⟩
  · simp only [S3.Load, S3.Exists, mkS3_KeyPrefix, mkS3_client, mkS3_Bucket, idealClient]
    cases lookupObj st B (goPathJoin P key) <;> simp
  · simp only [S3.Stat, mkS3_KeyPrefix, mkS3_client, mkS3_Bucket, idealClient]
    cases lookupObj st B (goPathJoin P key) <;> simp
